import Mathlib

/-
  Shallow embedding of the run/test lifecycle and storage-coordination layer of
  the simple-visual-tests repository (src/src/storage/VisualTestStorageAPI.ts,
  types in src/src/types/index.ts).

  Modelling conventions:
  * Redis is modelled as explicit state: JSON documents are maps from the
    Redis key string to a typed document, Redis sets are lists without
    duplicates, and the filesystem blob store is a map from a file path to
    the stored bytes.
  * `Date.now()` / `process.*` are ambient inputs; they are threaded as
    explicit parameters (`now`, `env`).
  * Node's `path.join(a, b)` is modelled as `a ++ "/" ++ b` (its behaviour on
    the separator-free segments produced here).
  * JS `Buffer` values are byte lists.  A nullable field is an `Option`; where
    a field of a document can also be missing entirely (JS `undefined` under
    object spread) the outer layer is a further `Option` or is noted inline.
  * Template-literal interpolation of a JS number (`${n}`) is its decimal
    digit string, embedded as `natStr`.
  * The `if (!client) throw` connection guard is outside every claim (all
    claims concern operations on a connected store), so operations are total
    functions of the explicit state.
-/

namespace VisualTests

/-- Byte buffers (JS `Buffer`) as lists of bytes. -/
abbrev Bytes := List Nat

/-- Theme type: `"light" | "dark"`. -/
inductive Theme
  | light
  | dark
deriving DecidableEq, Repr

/-- The string a `Theme` interpolates to in a template literal. -/
def Theme.str : Theme → String
  | .light => "light"
  | .dark => "dark"

/-- Viewport dimensions in pixels (`{ width: number; height: number }`). -/
structure Viewport where
  width : Nat
  height : Nat
deriving DecidableEq, Repr

/-- `StoryIdentifier = { storyId; theme; viewport }`. -/
structure StoryIdentifier where
  storyId : String
  theme : Theme
  viewport : Viewport
deriving DecidableEq, Repr

/-- Test status: `"running" | "passed" | "failed" | "new"`. -/
inductive Status
  | running
  | passed
  | failed
  | new
deriving DecidableEq, Repr

/-- Run termination reason: `"passed" | "interrupted" | "failed"`. -/
inductive Reason
  | passed
  | interrupted
  | failed
deriving DecidableEq, Repr

/-!  Decimal rendering of a JS number used by template literals.
     `natDigitsGo` is fuel-indexed so that it is structurally recursive and
     evaluates inside `decide`; `natDigits n` uses fuel `n + 1`, which is
     always sufficient. -/

/-- Fuel-indexed decimal digits of `n`, most significant first. -/
def natDigitsGo : Nat → Nat → List Char
  | 0, _ => []
  | fuel + 1, n =>
    if n < 10 then [Nat.digitChar n]
    else natDigitsGo fuel (n / 10) ++ [Nat.digitChar (n % 10)]

/-- Decimal digit characters of `n`, most significant first. -/
def natDigits (n : Nat) : List Char :=
  natDigitsGo (n + 1) n

/-- Decimal string of a JS number (`${n}` for a non-negative integer). -/
def natStr (n : Nat) : String :=
  ⟨natDigits n⟩

/-!  Path/Identity Resolver (key and path helpers of VisualTestStorageAPI). -/

/-- `runKey(runId)`: Redis key for a run document. -/
def runKey (runId : String) : String :=
  "visualrun:" ++ runId

/-- `runTestsSetKey(runId)`: Redis key for the set of test keys of a run. -/
def runTestsSetKey (runId : String) : String :=
  "visualrun:" ++ runId ++ ":tests"

/-- `testKeyFor(runId, s)`: Redis key for one test document. -/
def testKeyFor (runId : String) (s : StoryIdentifier) : String :=
  "visualtest:" ++ runId ++ ":" ++ s.storyId ++ ":" ++ s.theme.str ++ ":"
    ++ natStr s.viewport.width ++ "x" ++ natStr s.viewport.height

/-- The storage root (`VITE_VISUAL_TEST_IMAGES_PATH` default). -/
def getStorageRoot : String :=
  "./tests/visual-test-images"

/-- `getBaselineDir()`. -/
def getBaselineDir : String :=
  getStorageRoot ++ "/baselines"

/-- `getRunDir()`. -/
def getRunDir : String :=
  getStorageRoot ++ "/runs"

/-- `getImageId(storyIdentifier)`: unique image identifier of a story. -/
def getImageId (s : StoryIdentifier) : String :=
  s.storyId ++ "-" ++ s.theme.str ++ "-"
    ++ natStr s.viewport.width ++ "x" ++ natStr s.viewport.height

/-- `getBaselinePath(storyIdentifier)`. -/
def getBaselinePath (s : StoryIdentifier) : String :=
  getBaselineDir ++ "/" ++ getImageId s ++ ".png"

/-- `getRunImageDir(runId)`. -/
def getRunImageDir (runId : String) : String :=
  getRunDir ++ "/" ++ runId

/-- `getCurrentPath(runId, storyIdentifier)`. -/
def getCurrentPath (runId : String) (s : StoryIdentifier) : String :=
  getRunImageDir runId ++ "/" ++ getImageId s ++ "-current.png"

/-- `getDiffPath(runId, storyIdentifier)`. -/
def getDiffPath (runId : String) (s : StoryIdentifier) : String :=
  getRunImageDir runId ++ "/" ++ getImageId s ++ "-diff.png"

example : natStr 1920 = "1920" := by decide
example : testKeyFor "r1" ⟨"btn", .dark, ⟨1920, 1080⟩⟩
    = "visualtest:r1:btn:dark:1920x1080" := by decide
example : getBaselinePath ⟨"btn", .light, ⟨2, 3⟩⟩
    = "./tests/visual-test-images/baselines/btn-light-2x3.png" := by decide

/-!  Data model (types/index.ts). -/

/-- The aggregate counters of a run (`VisualTestRun["summary"]`). -/
structure RunSummary where
  total : Nat
  finished : Nat
  passed : Nat
  failed : Nat
  changed : Nat
  skipped : Nat
  new : Nat
deriving DecidableEq, Repr

/-- `getEnvironment()` snapshot (`nodeVersion`, `platform`, `ci`). -/
structure Environment where
  nodeVersion : String
  platform : String
  ci : Bool
deriving DecidableEq, Repr

/-- A stored run document.  `finishedAt`/`duration`/`reason` are absent on a
freshly started run (`NewVisualTestRun`) and set by `finishRun`. -/
structure RunDoc where
  runId : String
  startedAt : Nat
  finishedAt : Option Nat
  duration : Option Int
  reason : Option Reason
  summary : RunSummary
  environment : Environment
deriving DecidableEq, Repr

/-- A stored test document (`StoredVisualTestResult` as it actually exists in
the store: every writer sets `runId`, but any other field can be missing when
the document was produced by `updateTest` without a prior `startTest`).
For the three image-path fields a JS `null` and a missing field are
indistinguishable to every reader in the source, so both are `none`.
`diffRatio` distinguishes a missing field (`none`) from a stored `null`
(`some none`); diff ratios are rationals (JS numbers used as pixel ratios). -/
structure TestDoc where
  runId : String
  storyIdentifier : Option StoryIdentifier
  status : Option Status
  startedAt : Option Nat
  finishedAt : Option Nat
  baseline : Option String
  current : Option String
  diff : Option String
  diffRatio : Option (Option Rat)
  message : Option String
deriving DecidableEq, Repr

/-- The argument of `finishTest`: the `Pick<VisualTestResult, ...>` record.
All fields are present; the image fields are nullable buffers. -/
structure FinishResult where
  storyIdentifier : StoryIdentifier
  status : Status
  baseline : Option Bytes
  current : Option Bytes
  diff : Option Bytes
  diffRatio : Option Rat
  message : String
deriving DecidableEq, Repr

/-- The argument of `updateTest` (`VisualTestUpdate`, a `Partial`): every
field can be missing; the image fields, when present, are raw buffers. -/
structure VisualTestUpdate where
  status : Option Status
  baseline : Option Bytes
  current : Option Bytes
  diff : Option Bytes
  diffRatio : Option (Option Rat)
  message : Option String
deriving DecidableEq, Repr

/-- One published pub/sub message; `publish` writes it to the per-run and the
global channel in one MULTI, so a single ordered log of messages models the
fan-out (payloads are not inspected by any claim and are elided). -/
structure PublishMsg where
  type : String
  runId : String
  timestamp : Nat
deriving DecidableEq, Repr

/-- The two storage substrates plus the event log:
`runs`/`tests` are the Redis JSON documents (keyed by the full Redis key),
`runTests` the per-run Redis sets, `runIndex` the `visualruns:index` set,
`blobs` the image filesystem (path to bytes). -/
structure StorageState where
  runs : String → Option RunDoc
  tests : String → Option TestDoc
  runTests : String → List String
  runIndex : List String
  blobs : String → Option Bytes
  events : List PublishMsg

/-- Redis `SADD`: add a member to a set if not already present. -/
def sAdd (l : List String) (k : String) : List String :=
  if k ∈ l then l else l ++ [k]

/-- Point update of a string-keyed map. -/
def setKey (m : String → Option α) (k : String) (v : α) : String → Option α :=
  fun k₂ => if k₂ = k then some v else m k₂

/-- `publish(eventType, runId, payload)`: append one message to the log
(delivered to both the run channel and the global channel atomically). -/
def publish (st : StorageState) (eventType : String) (runId : String)
    (now : Nat) : StorageState :=
  { st with events := st.events ++ [⟨eventType, runId, now⟩] }

/-- JS object-spread override for one field: a later object's field wins
when present, otherwise the earlier value is kept. -/
def spreadField (upd base : Option α) : Option α :=
  match upd with
  | some v => some v
  | none => base

@[simp] theorem spreadField_some (v : α) (base : Option α) :
    spreadField (some v) base = some v := rfl

@[simp] theorem spreadField_none (base : Option α) :
    spreadField none base = base := rfl

/-- JS `x || null` on a nullable string (`existing?.baseline || null`):
keeps the string only when it is truthy, i.e. non-empty. -/
def orNull : Option String → Option String
  | some p => if p = "" then none else some p
  | none => none

/-!  Image Blob Store operations (filesystem side of VisualTestStorageAPI). -/

/-- The image kind argument of `saveImage`. -/
inductive ImageType
  | baseline
  | current
  | diff
deriving DecidableEq, Repr

/-- `saveBaseline(storyIdentifier, buffer)`: whole-file write at the baseline
path, returning the path. -/
def saveBaseline (st : StorageState) (s : StoryIdentifier) (buffer : Bytes) :
    StorageState × String :=
  let filePath := getBaselinePath s
  ({ st with blobs := setKey st.blobs filePath buffer }, filePath)

/-- `saveRunImage(runId, storyIdentifier, buffer, type)` for
`type` being `"current"` (`true`) or `"diff"` (`false`). -/
def saveRunImage (st : StorageState) (runId : String) (s : StoryIdentifier)
    (buffer : Bytes) (isCurrent : Bool) : StorageState × String :=
  let filePath := if isCurrent then getCurrentPath runId s else getDiffPath runId s
  ({ st with blobs := setKey st.blobs filePath buffer }, filePath)

/-- `saveImage(runId, storyIdentifier, buffer, type)`. -/
def saveImage (st : StorageState) (runId : String) (s : StoryIdentifier)
    (buffer : Bytes) : ImageType → StorageState × String
  | .baseline => saveBaseline st s buffer
  | .current => saveRunImage st runId s buffer true
  | .diff => saveRunImage st runId s buffer false

/-- `getImage(filePath)`: read bytes, `null` when the file is absent (blob
read errors are swallowed into the same `none`). -/
def getImage (st : StorageState) (filePath : String) : Option Bytes :=
  st.blobs filePath

/-- `getBaseline(storyIdentifier)`. -/
def getBaseline (st : StorageState) (s : StoryIdentifier) : Option Bytes :=
  getImage st (getBaselinePath s)

/-- Register a test key in the run's test-index set
(`pipeline.sAdd(runTestsSetKey(runId), key)`). -/
def sAddRunTests (st : StorageState) (runId key : String) : StorageState :=
  { st with runTests := fun k =>
      if k = runTestsSetKey runId then sAdd (st.runTests k) key else st.runTests k }

/-!  Test Lifecycle Manager. -/

/-- `startTest(runId, storyIdentifier)`: write a fresh `running` document,
linking a pre-existing baseline by reference when one exists on disk
(`existsSync`), register the key in the run's test set, publish
`test:started`.  Run summary counters are not touched. -/
def startTest (st : StorageState) (runId : String) (s : StoryIdentifier)
    (now : Nat) : StorageState × TestDoc :=
  let key := testKeyFor runId s
  let expectedBaselinePath := getBaselinePath s
  let baselineExists := (st.blobs expectedBaselinePath).isSome
  let baselinePath := if baselineExists then some expectedBaselinePath else none
  let newTest : TestDoc :=
    { runId := runId
      storyIdentifier := some s
      status := some .running
      startedAt := some now
      finishedAt := none
      baseline := baselinePath
      current := none
      diff := none
      diffRatio := none
      message := none }
  let st₁ := sAddRunTests { st with tests := setKey st.tests key newTest } runId key
  (publish st₁ "test:started" runId now, newTest)

/-- `updateTest(runId, storyIdentifier, partialUpdate)`: any image field
supplied as raw bytes is first written to the blob store and replaced by its
path; then `merged = { ...existing, ...partialWithoutBuffers,
...imageMetadata, runId }` is persisted and `test:updated` published. -/
def updateTest (st : StorageState) (runId : String) (s : StoryIdentifier)
    (u : VisualTestUpdate) (now : Nat) : StorageState :=
  let key := testKeyFor runId s
  let existing := st.tests key
  let step₁ :=
    match u.baseline with
    | some buf => let r := saveImage st runId s buf .baseline; (r.1, some r.2)
    | none => (st, (none : Option String))
  let step₂ :=
    match u.current with
    | some buf => let r := saveImage step₁.1 runId s buf .current; (r.1, some r.2)
    | none => (step₁.1, (none : Option String))
  let step₃ :=
    match u.diff with
    | some buf => let r := saveImage step₂.1 runId s buf .diff; (r.1, some r.2)
    | none => (step₂.1, (none : Option String))
  let merged : TestDoc :=
    { runId := runId
      storyIdentifier := existing.bind (fun e => e.storyIdentifier)
      status := spreadField u.status (existing.bind (fun e => e.status))
      startedAt := existing.bind (fun e => e.startedAt)
      finishedAt := existing.bind (fun e => e.finishedAt)
      baseline := spreadField step₁.2 (existing.bind (fun e => e.baseline))
      current := spreadField step₂.2 (existing.bind (fun e => e.current))
      diff := spreadField step₃.2 (existing.bind (fun e => e.diff))
      diffRatio := spreadField u.diffRatio (existing.bind (fun e => e.diffRatio))
      message := spreadField u.message (existing.bind (fun e => e.message)) }
  let st₄ := sAddRunTests { step₃.1 with tests := setKey step₃.1.tests key merged } runId key
  publish st₄ "test:updated" runId now

/-- A summary counter targeted by `JSON.NUMINCRBY`. -/
inductive SummaryField
  | finished
  | passed
  | failed
  | new
deriving DecidableEq, Repr

/-- Increment one counter of a summary by 1. -/
def RunSummary.incr (sm : RunSummary) : SummaryField → RunSummary
  | .finished => { sm with finished := sm.finished + 1 }
  | .passed => { sm with passed := sm.passed + 1 }
  | .failed => { sm with failed := sm.failed + 1 }
  | .new => { sm with new := sm.new + 1 }

/-- `client.json.numIncrBy(runKey, "summary.<field>", 1)`: an atomic numeric
increment applied to one field of the stored run document (not a rewrite of
the whole summary). -/
def numIncrBy (st : StorageState) (key : String) (f : SummaryField) :
    StorageState :=
  { st with runs := fun k =>
      if k = key then (st.runs k).map (fun r => { r with summary := r.summary.incr f })
      else st.runs k }

/-- `finishTest(runId, result)`: persist the final document (buffers replaced
by paths; a missing `current`/`diff` buffer stores `null`, a missing
`baseline` buffer keeps `existing?.baseline || null`), register the key, then
atomically increment the owning run's `finished` counter and the counter
matching the status, publish `test:finished` then `run:summary`; with the run
document missing, the increments are skipped and only `test:finished` is
published.  Returns the (locally updated) run document or `none`. -/
def finishTest (st : StorageState) (runId : String) (result : FinishResult)
    (now : Nat) : StorageState × Option RunDoc :=
  let key := testKeyFor runId result.storyIdentifier
  let finishedAt := now
  let existing := st.tests key
  let step₁ :=
    match result.baseline with
    | some buf =>
        let r := saveImage st runId result.storyIdentifier buf .baseline
        (r.1, some r.2)
    | none => (st, orNull (existing.bind (fun e => e.baseline)))
  let step₂ :=
    match result.current with
    | some buf =>
        let r := saveImage step₁.1 runId result.storyIdentifier buf .current
        (r.1, some r.2)
    | none => (step₁.1, (none : Option String))
  let step₃ :=
    match result.diff with
    | some buf =>
        let r := saveImage step₂.1 runId result.storyIdentifier buf .diff
        (r.1, some r.2)
    | none => (step₂.1, (none : Option String))
  let finalObj : TestDoc :=
    { runId := runId
      storyIdentifier := some result.storyIdentifier
      status := some result.status
      startedAt :=
        match existing with
        | some e => e.startedAt
        | none => some finishedAt
      finishedAt := some finishedAt
      baseline := step₁.2
      current := step₂.2
      diff := step₃.2
      diffRatio := some result.diffRatio
      message := some result.message }
  let st₄ := sAddRunTests { step₃.1 with tests := setKey step₃.1.tests key finalObj } runId key
  let runK := runKey runId
  match st₄.runs runK with
  | some runObj =>
      let st₅ := numIncrBy st₄ runK .finished
      let st₆ := if finalObj.status = some .passed then numIncrBy st₅ runK .passed else st₅
      let st₇ := if finalObj.status = some .failed then numIncrBy st₆ runK .failed else st₆
      let st₈ := if finalObj.status = some .new then numIncrBy st₇ runK .new else st₇
      let sm₁ := { runObj.summary with finished := runObj.summary.finished + 1 }
      let sm₂ := if finalObj.status = some .passed then { sm₁ with passed := sm₁.passed + 1 } else sm₁
      let sm₃ := if finalObj.status = some .failed then { sm₂ with failed := sm₂.failed + 1 } else sm₂
      let sm₄ := if finalObj.status = some .new then { sm₃ with new := sm₃.new + 1 } else sm₃
      let st₉ := publish st₈ "test:finished" runId now
      let st₁₀ := publish st₉ "run:summary" runId now
      (st₁₀, some { runObj with summary := sm₄ })
  | none =>
      (publish st₄ "test:finished" runId now, none)

/-- Fold of `finishTest` over a list of results of the same run (the state
effect of finishing those tests in this order). -/
def finishTests (st : StorageState) (runId : String)
    (results : List FinishResult) (now : Nat) : StorageState :=
  results.foldl (fun s r => (finishTest s runId r now).1) st

/-!  Run Lifecycle Manager. -/

/-- `finishRun(runId, reason)`: stamp and persist the run when found
(publishing `run:finished` and `run:summary`); otherwise synthesize and
persist a minimal zero-summary run (publishing only `run:finished`). -/
def finishRun (st : StorageState) (runId : String) (reason : Reason)
    (now : Nat) (env : Environment) : StorageState × RunDoc :=
  let key := runKey runId
  match st.runs key with
  | some runObj =>
      let runObj₁ := { runObj with finishedAt := some now, reason := some reason }
      let runObj₂ :=
        if runObj₁.startedAt ≠ 0 then
          { runObj₁ with duration := some ((now : Int) - (runObj₁.startedAt : Int)) }
        else runObj₁
      let st₁ := { st with runs := setKey st.runs key runObj₂ }
      let st₂ := publish st₁ "run:finished" runId now
      let st₃ := publish st₂ "run:summary" runId now
      (st₃, runObj₂)
  | none =>
      let run : RunDoc :=
        { runId := runId
          startedAt := now
          finishedAt := some now
          duration := some 0
          reason := some reason
          summary :=
            { total := 0, finished := 0, passed := 0, failed := 0,
              changed := 0, skipped := 0, new := 0 }
          environment := env }
      let st₁ :=
        { st with runs := setKey st.runs key run,
                  runIndex := sAdd st.runIndex runId }
      let st₂ := publish st₁ "run:finished" runId now
      (st₂, run)

/-!  Baseline promotion. -/

/-- The raised errors of `acceptBaseline`. -/
inductive StorageError
  | testNotFound
  | noCurrentImage
  | currentImageMissingOnFs
deriving DecidableEq, Repr

/-- `acceptBaseline(runId, storyIdentifier)`: `Test not found` when the
document is absent, `No current image to promote` when `test.current` is
falsy (null or the empty string), `Current image not found on filesystem`
when the referenced bytes cannot be read; otherwise promote the current
bytes to the baseline path, rewrite the document (baseline path, diff and
diffRatio null, status passed) and publish `baseline:accepted`. -/
def acceptBaseline (st : StorageState) (runId : String) (s : StoryIdentifier)
    (now : Nat) : Except StorageError StorageState :=
  let key := testKeyFor runId s
  match st.tests key with
  | none => .error .testNotFound
  | some test =>
    match test.current with
    | none => .error .noCurrentImage
    | some currentPath =>
      if currentPath = "" then .error .noCurrentImage
      else
        match getImage st currentPath with
        | none => .error .currentImageMissingOnFs
        | some currentBuffer =>
          let saved := saveBaseline st s currentBuffer
          let test₂ :=
            { test with baseline := some saved.2, diff := none,
                        diffRatio := some none, status := some .passed }
          let st₂ := { saved.1 with tests := setKey saved.1.tests key test₂ }
          .ok (publish st₂ "baseline:accepted" runId now)

/-- `getTest(runId, storyIdentifier)`. -/
def getTest (st : StorageState) (runId : String) (s : StoryIdentifier) :
    Option TestDoc :=
  st.tests (testKeyFor runId s)

/-- A state with nothing stored yet (used to instantiate theorems). -/
def emptyState : StorageState :=
  { runs := fun _ => none
    tests := fun _ => none
    runTests := fun _ => []
    runIndex := []
    blobs := fun _ => none
    events := [] }

/-!  Projection lemmas: which parts of the state each primitive touches. -/

@[simp] theorem publish_runs (st : StorageState) (t r : String) (n : Nat) :
    (publish st t r n).runs = st.runs := rfl

@[simp] theorem publish_tests (st : StorageState) (t r : String) (n : Nat) :
    (publish st t r n).tests = st.tests := rfl

@[simp] theorem publish_blobs (st : StorageState) (t r : String) (n : Nat) :
    (publish st t r n).blobs = st.blobs := rfl

@[simp] theorem publish_runTests (st : StorageState) (t r : String) (n : Nat) :
    (publish st t r n).runTests = st.runTests := rfl

@[simp] theorem publish_runIndex (st : StorageState) (t r : String) (n : Nat) :
    (publish st t r n).runIndex = st.runIndex := rfl

@[simp] theorem publish_events (st : StorageState) (t r : String) (n : Nat) :
    (publish st t r n).events = st.events ++ [⟨t, r, n⟩] := rfl

@[simp] theorem sAddRunTests_runs (st : StorageState) (r k : String) :
    (sAddRunTests st r k).runs = st.runs := rfl

@[simp] theorem sAddRunTests_tests (st : StorageState) (r k : String) :
    (sAddRunTests st r k).tests = st.tests := rfl

@[simp] theorem sAddRunTests_blobs (st : StorageState) (r k : String) :
    (sAddRunTests st r k).blobs = st.blobs := rfl

@[simp] theorem sAddRunTests_events (st : StorageState) (r k : String) :
    (sAddRunTests st r k).events = st.events := rfl

@[simp] theorem numIncrBy_tests (st : StorageState) (k : String) (f : SummaryField) :
    (numIncrBy st k f).tests = st.tests := rfl

@[simp] theorem numIncrBy_blobs (st : StorageState) (k : String) (f : SummaryField) :
    (numIncrBy st k f).blobs = st.blobs := rfl

@[simp] theorem numIncrBy_events (st : StorageState) (k : String) (f : SummaryField) :
    (numIncrBy st k f).events = st.events := rfl

@[simp] theorem saveBaseline_fst_tests (st : StorageState) (s : StoryIdentifier) (b : Bytes) :
    (saveBaseline st s b).1.tests = st.tests := rfl

@[simp] theorem saveBaseline_fst_runs (st : StorageState) (s : StoryIdentifier) (b : Bytes) :
    (saveBaseline st s b).1.runs = st.runs := rfl

@[simp] theorem saveBaseline_fst_events (st : StorageState) (s : StoryIdentifier) (b : Bytes) :
    (saveBaseline st s b).1.events = st.events := rfl

@[simp] theorem saveBaseline_fst_blobs (st : StorageState) (s : StoryIdentifier) (b : Bytes) :
    (saveBaseline st s b).1.blobs = setKey st.blobs (getBaselinePath s) b := rfl

@[simp] theorem saveBaseline_snd (st : StorageState) (s : StoryIdentifier) (b : Bytes) :
    (saveBaseline st s b).2 = getBaselinePath s := rfl

@[simp] theorem saveRunImage_fst_tests (st : StorageState) (r : String)
    (s : StoryIdentifier) (b : Bytes) (c : Bool) :
    (saveRunImage st r s b c).1.tests = st.tests := rfl

@[simp] theorem saveRunImage_fst_runs (st : StorageState) (r : String)
    (s : StoryIdentifier) (b : Bytes) (c : Bool) :
    (saveRunImage st r s b c).1.runs = st.runs := rfl

@[simp] theorem saveRunImage_fst_events (st : StorageState) (r : String)
    (s : StoryIdentifier) (b : Bytes) (c : Bool) :
    (saveRunImage st r s b c).1.events = st.events := rfl

@[simp] theorem saveRunImage_fst_blobs (st : StorageState) (r : String)
    (s : StoryIdentifier) (b : Bytes) (c : Bool) :
    (saveRunImage st r s b c).1.blobs =
      setKey st.blobs (if c then getCurrentPath r s else getDiffPath r s) b := rfl

@[simp] theorem saveRunImage_snd (st : StorageState) (r : String)
    (s : StoryIdentifier) (b : Bytes) (c : Bool) :
    (saveRunImage st r s b c).2 =
      (if c then getCurrentPath r s else getDiffPath r s) := rfl

@[simp] theorem saveImage_baseline (st : StorageState) (r : String)
    (s : StoryIdentifier) (b : Bytes) :
    saveImage st r s b .baseline = saveBaseline st s b := rfl

@[simp] theorem saveImage_current (st : StorageState) (r : String)
    (s : StoryIdentifier) (b : Bytes) :
    saveImage st r s b .current = saveRunImage st r s b true := rfl

@[simp] theorem saveImage_diff (st : StorageState) (r : String)
    (s : StoryIdentifier) (b : Bytes) :
    saveImage st r s b .diff = saveRunImage st r s b false := rfl

@[simp] theorem setKey_self (m : String → Option α) (k : String) (v : α) :
    setKey m k v k = some v := by
  simp [setKey]

theorem setKey_ne (m : String → Option α) (k k₂ : String) (v : α)
    (h : k₂ ≠ k) : setKey m k v k₂ = m k₂ := by
  simp [setKey, h]

@[simp] theorem sAdd_self_mem (l : List String) (k : String) : k ∈ sAdd l k := by
  unfold sAdd
  split
  · assumption
  · simp

/-!  Claim theorems. -/

/-- C4: `startTest` persists (and `getTest` then returns) a document with
status `running`, `finishedAt` absent, `current` and `diff` null,
`startedAt = now`, and `baseline` equal to the pre-existing baseline path
when one exists on disk, else null; it registers the key in the run's
test-index set, publishes `test:started`, and leaves every run document
(hence all summary counters) unchanged. -/
theorem startTest_spec (st : StorageState) (runId : String)
    (s : StoryIdentifier) (now : Nat) :
    getTest (startTest st runId s now).1 runId s =
      some { runId := runId
             storyIdentifier := some s
             status := some .running
             startedAt := some now
             finishedAt := none
             baseline :=
               if (st.blobs (getBaselinePath s)).isSome
               then some (getBaselinePath s) else none
             current := none
             diff := none
             diffRatio := none
             message := none }
    ∧ testKeyFor runId s ∈ (startTest st runId s now).1.runTests (runTestsSetKey runId)
    ∧ (startTest st runId s now).1.runs = st.runs
    ∧ (startTest st runId s now).1.events = st.events ++ [⟨"test:started", runId, now⟩] := by
  refine ⟨?_, ?_, ?_, ?_⟩
  · simp [startTest, getTest]
  · simp [startTest, sAddRunTests]
  · simp [startTest]
  · simp [startTest]

/-- C6: `finishRun` on a run whose document is absent synthesizes and
persists a run with an all-zero summary, the given reason, duration 0 and
`startedAt = finishedAt = now`, records it in the run index, and returns
it — it does not fail. -/
theorem finishRun_missing_spec (st : StorageState) (runId : String)
    (reason : Reason) (now : Nat) (env : Environment)
    (h : st.runs (runKey runId) = none) :
    (finishRun st runId reason now env).2 =
      { runId := runId
        startedAt := now
        finishedAt := some now
        duration := some 0
        reason := some reason
        summary := { total := 0, finished := 0, passed := 0, failed := 0,
                     changed := 0, skipped := 0, new := 0 }
        environment := env }
    ∧ (finishRun st runId reason now env).1.runs (runKey runId) =
        some (finishRun st runId reason now env).2
    ∧ runId ∈ (finishRun st runId reason now env).1.runIndex := by
  refine ⟨?_, ?_, ?_⟩ <;> simp [finishRun, h]

/-- C6 witness: `finishRun` on the empty store, instantiated concretely. -/
theorem finishRun_missing_spec_witness :
    emptyState.runs (runKey "r") = none
    ∧ (finishRun emptyState "r" .interrupted 7 ⟨"v20", "linux", false⟩).2 =
        { runId := "r"
          startedAt := 7
          finishedAt := some 7
          duration := some 0
          reason := some .interrupted
          summary := { total := 0, finished := 0, passed := 0, failed := 0,
                       changed := 0, skipped := 0, new := 0 }
          environment := ⟨"v20", "linux", false⟩ }
    ∧ (finishRun emptyState "r" .interrupted 7 ⟨"v20", "linux", false⟩).1.runs
        (runKey "r") =
        some (finishRun emptyState "r" .interrupted 7 ⟨"v20", "linux", false⟩).2
    ∧ "r" ∈ (finishRun emptyState "r" .interrupted 7 ⟨"v20", "linux", false⟩).1.runIndex := by
  have h := finishRun_missing_spec emptyState "r" .interrupted 7
    ⟨"v20", "linux", false⟩ rfl
  exact ⟨rfl, h.1, h.2.1, h.2.2⟩

/-- C7: `acceptBaseline` raises `Test not found` whenever no test document is
stored under the key, and raises the distinct `No current image to promote`
error whenever the stored document's `current` field is null; in both cases
the operation returns the error without producing any new state, so no
baseline is written and the document is untouched. -/
theorem acceptBaseline_errors (st : StorageState) (runId : String)
    (s : StoryIdentifier) (now : Nat) :
    (st.tests (testKeyFor runId s) = none →
      acceptBaseline st runId s now = .error .testNotFound)
    ∧ (∀ test : TestDoc, st.tests (testKeyFor runId s) = some test →
        test.current = none →
        acceptBaseline st runId s now = .error .noCurrentImage) := by
  constructor
  · intro h
    simp [acceptBaseline, h]
  · intro test h hcur
    simp [acceptBaseline, h, hcur]

/-- A concrete running test document with no images recorded. -/
def sampleRunningDoc : TestDoc :=
  { runId := "r", storyIdentifier := some ⟨"a", .light, ⟨1, 2⟩⟩,
    status := some .running, startedAt := some 1,
    finishedAt := none, baseline := none, current := none,
    diff := none, diffRatio := none, message := none }

/-- A concrete state holding only `sampleRunningDoc`. -/
def sampleRunningState : StorageState :=
  { emptyState with
      tests := setKey emptyState.tests (testKeyFor "r" ⟨"a", .light, ⟨1, 2⟩⟩) sampleRunningDoc }

/-- C7 witness: both failure cases at concrete inputs. -/
theorem acceptBaseline_errors_witness :
    (emptyState.tests (testKeyFor "r" ⟨"a", .light, ⟨1, 2⟩⟩) = none
      ∧ acceptBaseline emptyState "r" ⟨"a", .light, ⟨1, 2⟩⟩ 3 =
          .error .testNotFound)
    ∧ (sampleRunningState.tests (testKeyFor "r" ⟨"a", .light, ⟨1, 2⟩⟩) =
          some sampleRunningDoc
      ∧ sampleRunningDoc.current = none
      ∧ acceptBaseline sampleRunningState "r" ⟨"a", .light, ⟨1, 2⟩⟩ 3 =
          .error .noCurrentImage) := by
  constructor
  · exact ⟨rfl, (acceptBaseline_errors emptyState "r" ⟨"a", .light, ⟨1, 2⟩⟩ 3).1 rfl⟩
  · exact ⟨by simp [sampleRunningState], rfl,
      (acceptBaseline_errors sampleRunningState "r" ⟨"a", .light, ⟨1, 2⟩⟩ 3).2
        sampleRunningDoc (by simp [sampleRunningState]) rfl⟩

/-- C10: `acceptBaseline` has a third failure mode: with a stored document
whose `current` field names a path whose bytes cannot be read from the blob
store, it returns the `Current image not found on filesystem` error and
produces no new state, so no baseline is written and the document is
untouched. -/
theorem acceptBaseline_missing_file (st : StorageState) (runId : String)
    (s : StoryIdentifier) (now : Nat) (test : TestDoc) (p : String)
    (h : st.tests (testKeyFor runId s) = some test)
    (hcur : test.current = some p) (hp : p ≠ "")
    (hblob : st.blobs p = none) :
    acceptBaseline st runId s now = .error .currentImageMissingOnFs := by
  simp [acceptBaseline, h, hcur, hp, getImage, hblob]

/-- A concrete finished document whose current path has no stored bytes. -/
def sampleGhostDoc : TestDoc :=
  { runId := "r", storyIdentifier := some ⟨"a", .light, ⟨1, 2⟩⟩,
    status := some .failed, startedAt := some 1,
    finishedAt := some 2, baseline := none,
    current := some "ghost.png", diff := none,
    diffRatio := none, message := none }

/-- A concrete state holding only `sampleGhostDoc` and no blobs. -/
def sampleGhostState : StorageState :=
  { emptyState with
      tests := setKey emptyState.tests (testKeyFor "r" ⟨"a", .light, ⟨1, 2⟩⟩) sampleGhostDoc }

/-- C10 witness: a concrete document pointing at an unreadable path. -/
theorem acceptBaseline_missing_file_witness :
    sampleGhostState.tests (testKeyFor "r" ⟨"a", .light, ⟨1, 2⟩⟩) =
        some sampleGhostDoc
    ∧ sampleGhostDoc.current = some "ghost.png"
    ∧ sampleGhostState.blobs "ghost.png" = none
    ∧ acceptBaseline sampleGhostState "r" ⟨"a", .light, ⟨1, 2⟩⟩ 3 =
        .error .currentImageMissingOnFs := by
  refine ⟨by simp [sampleGhostState], rfl, rfl, ?_⟩
  exact acceptBaseline_missing_file sampleGhostState "r" ⟨"a", .light, ⟨1, 2⟩⟩ 3
    sampleGhostDoc "ghost.png" (by simp [sampleGhostState]) rfl (by decide) rfl

/-- C2: on a stored test document whose non-null `current` path has readable
bytes, `acceptBaseline` writes those bytes as the new baseline for the story
identifier (unconditionally overwriting any prior baseline blob), rewrites
the document's baseline to the new baseline path, sets `diff` and `diffRatio`
to null and `status` to `passed`, and publishes `baseline:accepted`; a
subsequent `getBaseline` for that story identifier returns exactly the
promoted bytes. -/
theorem acceptBaseline_spec (st : StorageState) (runId : String)
    (s : StoryIdentifier) (now : Nat) (test : TestDoc) (p : String)
    (buf : Bytes)
    (h : st.tests (testKeyFor runId s) = some test)
    (hcur : test.current = some p) (hp : p ≠ "")
    (hblob : st.blobs p = some buf) :
    ∃ st₂, acceptBaseline st runId s now = .ok st₂
      ∧ st₂.blobs (getBaselinePath s) = some buf
      ∧ getBaseline st₂ s = some buf
      ∧ st₂.tests (testKeyFor runId s) =
          some { test with baseline := some (getBaselinePath s), diff := none,
                           diffRatio := some none, status := some .passed }
      ∧ st₂.events = st.events ++ [⟨"baseline:accepted", runId, now⟩] := by
  simp [acceptBaseline, h, hcur, hp, getImage, hblob, saveBaseline, getBaseline]

/-- A concrete failed document whose current path has stored bytes. -/
def samplePromotableDoc : TestDoc :=
  { runId := "r", storyIdentifier := some ⟨"a", .light, ⟨1, 2⟩⟩,
    status := some .failed, startedAt := some 1,
    finishedAt := some 2, baseline := none,
    current := some "cur.png", diff := some "d.png",
    diffRatio := some (some (1 / 2)), message := some "mismatch" }

/-- A concrete state holding `samplePromotableDoc` and its current bytes. -/
def samplePromotableState : StorageState :=
  { emptyState with
      tests := setKey emptyState.tests (testKeyFor "r" ⟨"a", .light, ⟨1, 2⟩⟩) samplePromotableDoc
      blobs := setKey emptyState.blobs "cur.png" [9, 8, 7] }

/-- C2 witness: promotion at a concrete state. -/
theorem acceptBaseline_spec_witness :
    samplePromotableState.tests (testKeyFor "r" ⟨"a", .light, ⟨1, 2⟩⟩) =
        some samplePromotableDoc
    ∧ samplePromotableDoc.current = some "cur.png"
    ∧ samplePromotableState.blobs "cur.png" = some [9, 8, 7]
    ∧ ∃ st₂, acceptBaseline samplePromotableState "r" ⟨"a", .light, ⟨1, 2⟩⟩ 3 = .ok st₂
      ∧ st₂.blobs (getBaselinePath ⟨"a", .light, ⟨1, 2⟩⟩) = some [9, 8, 7]
      ∧ getBaseline st₂ ⟨"a", .light, ⟨1, 2⟩⟩ = some [9, 8, 7]
      ∧ st₂.tests (testKeyFor "r" ⟨"a", .light, ⟨1, 2⟩⟩) =
          some { samplePromotableDoc with
                   baseline := some (getBaselinePath ⟨"a", .light, ⟨1, 2⟩⟩),
                   diff := none, diffRatio := some none, status := some .passed }
      ∧ st₂.events = samplePromotableState.events ++ [⟨"baseline:accepted", "r", 3⟩] := by
  refine ⟨by simp [samplePromotableState], rfl, by simp [samplePromotableState], ?_⟩
  exact acceptBaseline_spec samplePromotableState "r" ⟨"a", .light, ⟨1, 2⟩⟩ 3
    samplePromotableDoc "cur.png" [9, 8, 7]
    (by simp [samplePromotableState]) rfl (by decide)
    (by simp [samplePromotableState])

/-- C3 counterexample: on a store with no run document, `finishRun` publishes
only `run:finished` — no `run:summary` — refuting the claim that both events
are emitted regardless of whether the run was found or synthesized. -/
theorem finishRun_missing_only_finished_event :
    (finishRun emptyState "r" .passed 5 ⟨"v20", "linux", false⟩).1.events =
      [⟨"run:finished", "r", 5⟩] := by
  simp [finishRun, emptyState]

/-- C3 (amended): `finishRun` publishes `run:finished` followed by
`run:summary` when the run document was found; when the run document is
absent and a minimal run is synthesized, it publishes only `run:finished`. -/
theorem finishRun_events (st : StorageState) (runId : String)
    (reason : Reason) (now : Nat) (env : Environment) :
    (finishRun st runId reason now env).1.events =
      st.events ++
        (match st.runs (runKey runId) with
         | some _ => [⟨"run:finished", runId, now⟩, ⟨"run:summary", runId, now⟩]
         | none => [⟨"run:finished", runId, now⟩]) := by
  cases h : st.runs (runKey runId) <;> simp [finishRun, h]

@[simp] theorem ite_tests (c : Prop) [Decidable c] (a b : StorageState) :
    (if c then a else b).tests = if c then a.tests else b.tests := by
  split <;> rfl

@[simp] theorem ite_runs (c : Prop) [Decidable c] (a b : StorageState) :
    (if c then a else b).runs = if c then a.runs else b.runs := by
  split <;> rfl

@[simp] theorem ite_blobs (c : Prop) [Decidable c] (a b : StorageState) :
    (if c then a else b).blobs = if c then a.blobs else b.blobs := by
  split <;> rfl

@[simp] theorem ite_events (c : Prop) [Decidable c] (a b : StorageState) :
    (if c then a else b).events = if c then a.events else b.events := by
  split <;> rfl

/-- The final test document persisted by `finishTest` (the only write to the
test key): buffers are replaced by their save paths, a missing
`current`/`diff` buffer stores null, a missing `baseline` buffer stores
`existing?.baseline || null`, `startedAt` is kept from the existing document
(defaulting to `now`), `finishedAt` is stamped. -/
theorem finishTest_tests (st : StorageState) (runId : String)
    (result : FinishResult) (now : Nat) :
    (finishTest st runId result now).1.tests (testKeyFor runId result.storyIdentifier) =
      some { runId := runId
             storyIdentifier := some result.storyIdentifier
             status := some result.status
             startedAt :=
               match st.tests (testKeyFor runId result.storyIdentifier) with
               | some e => e.startedAt
               | none => some now
             finishedAt := some now
             baseline :=
               match result.baseline with
               | some _ => some (getBaselinePath result.storyIdentifier)
               | none =>
                   orNull ((st.tests (testKeyFor runId result.storyIdentifier)).bind
                     (fun e => e.baseline))
             current := result.current.map (fun _ => getCurrentPath runId result.storyIdentifier)
             diff := result.diff.map (fun _ => getDiffPath runId result.storyIdentifier)
             diffRatio := some result.diffRatio
             message := some result.message } := by
  cases hb : result.baseline <;> cases hc : result.current <;> cases hd : result.diff <;>
    (unfold finishTest; simp [hb, hc, hd]) <;> split <;> simp

/-- C9: `finishTest` treats absent image buffers asymmetrically — with the
`current` or `diff` buffer missing from the result, the persisted final
document stores null there (discarding any previously stored path), while a
missing `baseline` buffer keeps the previously stored baseline path. -/
theorem finishTest_image_asymmetry (st : StorageState) (runId : String)
    (result : FinishResult) (now : Nat) (e : TestDoc)
    (hex : st.tests (testKeyFor runId result.storyIdentifier) = some e) :
    ∃ d, (finishTest st runId result now).1.tests
        (testKeyFor runId result.storyIdentifier) = some d
      ∧ (result.current = none → d.current = none)
      ∧ (result.diff = none → d.diff = none)
      ∧ (∀ p, result.baseline = none → e.baseline = some p → p ≠ "" →
          d.baseline = some p)
      ∧ (result.baseline = none → e.baseline = none → d.baseline = none) := by
  refine ⟨_, finishTest_tests st runId result now, ?_, ?_, ?_, ?_⟩
  · intro hc
    simp [hc]
  · intro hd
    simp [hd]
  · intro p hb hbase hp
    simp [hb, hex, hbase, orNull, hp]
  · intro hb hbase
    simp [hb, hex, hbase, orNull]

/-- A finished document whose baseline/current/diff paths are all recorded. -/
def sampleFinishedDoc : TestDoc :=
  { runId := "r", storyIdentifier := some ⟨"a", .light, ⟨1, 2⟩⟩,
    status := some .failed, startedAt := some 1,
    finishedAt := some 2, baseline := some "base.png",
    current := some "cur.png", diff := some "d.png",
    diffRatio := some (some (1 / 4)), message := some "mismatch" }

/-- A concrete state holding only `sampleFinishedDoc`. -/
def sampleFinishedState : StorageState :=
  { emptyState with
      tests := setKey emptyState.tests (testKeyFor "r" ⟨"a", .light, ⟨1, 2⟩⟩) sampleFinishedDoc }

/-- C9 witness: re-finishing with no buffers nulls `current`/`diff` but keeps
the stored baseline path. -/
theorem finishTest_image_asymmetry_witness :
    sampleFinishedState.tests
        (testKeyFor "r" (FinishResult.storyIdentifier
          ⟨⟨"a", .light, ⟨1, 2⟩⟩, .passed, none, none, none, none, "ok"⟩)) =
      some sampleFinishedDoc
    ∧ ∃ d, (finishTest sampleFinishedState "r"
          ⟨⟨"a", .light, ⟨1, 2⟩⟩, .passed, none, none, none, none, "ok"⟩ 9).1.tests
          (testKeyFor "r" ⟨"a", .light, ⟨1, 2⟩⟩) = some d
      ∧ d.current = none
      ∧ d.diff = none
      ∧ d.baseline = some "base.png" := by
  constructor
  · simp [sampleFinishedState]
  · obtain ⟨d, hd, hc, hdf, hbl, -⟩ :=
      finishTest_image_asymmetry sampleFinishedState "r"
        ⟨⟨"a", .light, ⟨1, 2⟩⟩, .passed, none, none, none, none, "ok"⟩ 9
        sampleFinishedDoc (by simp [sampleFinishedState])
    exact ⟨d, hd, hc rfl, hdf rfl, hbl "base.png" rfl rfl (by decide)⟩

/-!  Distinctness of the three image locations of one test. -/

theorem getBaselinePath_ne_getCurrentPath (r : String) (s t : StoryIdentifier) :
    getBaselinePath s ≠ getCurrentPath r t := by
  intro h
  have h₂ := congrArg String.data h
  simp only [getBaselinePath, getCurrentPath, getBaselineDir, getRunDir,
    getRunImageDir, String.data_append, List.append_assoc] at h₂
  have h₃ := List.append_cancel_left h₂
  simp only [List.cons_append] at h₃
  injection h₃ with _ h₄
  injection h₄ with h₅ _
  exact absurd h₅ (by decide)

theorem getBaselinePath_ne_getDiffPath (r : String) (s t : StoryIdentifier) :
    getBaselinePath s ≠ getDiffPath r t := by
  intro h
  have h₂ := congrArg String.data h
  simp only [getBaselinePath, getDiffPath, getBaselineDir, getRunDir,
    getRunImageDir, String.data_append, List.append_assoc] at h₂
  have h₃ := List.append_cancel_left h₂
  simp only [List.cons_append] at h₃
  injection h₃ with _ h₄
  injection h₄ with h₅ _
  exact absurd h₅ (by decide)

theorem getCurrentPath_ne_getDiffPath (r : String) (s : StoryIdentifier) :
    getCurrentPath r s ≠ getDiffPath r s := by
  intro h
  have h₂ := congrArg String.data h
  simp only [getCurrentPath, getDiffPath, String.data_append,
    List.append_assoc] at h₂
  have h₃ := List.append_cancel_left h₂
  have h₄ := List.append_cancel_left h₃
  have h₅ := List.append_cancel_left h₄
  exact absurd h₅ (by decide)

/-- The merged document persisted by `updateTest`: present fields of the
update override, buffers are replaced by their save paths, absent fields keep
the existing stored value. -/
theorem updateTest_tests (st : StorageState) (runId : String)
    (s : StoryIdentifier) (u : VisualTestUpdate) (now : Nat) :
    (updateTest st runId s u now).tests (testKeyFor runId s) =
      some { runId := runId
             storyIdentifier := (st.tests (testKeyFor runId s)).bind (fun e => e.storyIdentifier)
             status := spreadField u.status ((st.tests (testKeyFor runId s)).bind (fun e => e.status))
             startedAt := (st.tests (testKeyFor runId s)).bind (fun e => e.startedAt)
             finishedAt := (st.tests (testKeyFor runId s)).bind (fun e => e.finishedAt)
             baseline := spreadField (u.baseline.map (fun _ => getBaselinePath s))
               ((st.tests (testKeyFor runId s)).bind (fun e => e.baseline))
             current := spreadField (u.current.map (fun _ => getCurrentPath runId s))
               ((st.tests (testKeyFor runId s)).bind (fun e => e.current))
             diff := spreadField (u.diff.map (fun _ => getDiffPath runId s))
               ((st.tests (testKeyFor runId s)).bind (fun e => e.diff))
             diffRatio := spreadField u.diffRatio ((st.tests (testKeyFor runId s)).bind (fun e => e.diffRatio))
             message := spreadField u.message ((st.tests (testKeyFor runId s)).bind (fun e => e.message)) } := by
  cases hb : u.baseline <;> cases hc : u.current <;> cases hd : u.diff <;>
    (unfold updateTest; simp [hb, hc, hd])

/-- A baseline buffer in the update is stored at the baseline path. -/
theorem updateTest_blobs_baseline (st : StorageState) (runId : String)
    (s : StoryIdentifier) (u : VisualTestUpdate) (now : Nat) (b : Bytes)
    (hb : u.baseline = some b) :
    (updateTest st runId s u now).blobs (getBaselinePath s) = some b := by
  cases hc : u.current <;> cases hd : u.diff <;>
    (unfold updateTest;
     simp [hb, hc, hd, setKey_ne, getBaselinePath_ne_getCurrentPath,
       getBaselinePath_ne_getDiffPath])

/-- A current buffer in the update is stored at the current path. -/
theorem updateTest_blobs_current (st : StorageState) (runId : String)
    (s : StoryIdentifier) (u : VisualTestUpdate) (now : Nat) (b : Bytes)
    (hc : u.current = some b) :
    (updateTest st runId s u now).blobs (getCurrentPath runId s) = some b := by
  cases hb : u.baseline <;> cases hd : u.diff <;>
    (unfold updateTest;
     simp [hb, hc, hd, setKey_ne, getCurrentPath_ne_getDiffPath])

/-- A diff buffer in the update is stored at the diff path. -/
theorem updateTest_blobs_diff (st : StorageState) (runId : String)
    (s : StoryIdentifier) (u : VisualTestUpdate) (now : Nat) (b : Bytes)
    (hd : u.diff = some b) :
    (updateTest st runId s u now).blobs (getDiffPath runId s) = some b := by
  cases hb : u.baseline <;> cases hc : u.current <;>
    (unfold updateTest; simp [hb, hc, hd])

/-- C5: `updateTest` on an existing document persists a merged document in
which every field not present in the update keeps its prior stored value
(`storyIdentifier`, `startedAt` and `finishedAt` are never in an update and
are always kept), and every image field supplied as raw bytes is first
written to the blob store and appears in the metadata document only as its
file path. -/
theorem updateTest_spec (st : StorageState) (runId : String)
    (s : StoryIdentifier) (u : VisualTestUpdate) (now : Nat) (e : TestDoc)
    (hex : st.tests (testKeyFor runId s) = some e) :
    ∃ m, (updateTest st runId s u now).tests (testKeyFor runId s) = some m
      ∧ m.storyIdentifier = e.storyIdentifier
      ∧ m.startedAt = e.startedAt
      ∧ m.finishedAt = e.finishedAt
      ∧ (u.status = none → m.status = e.status)
      ∧ (∀ v, u.status = some v → m.status = some v)
      ∧ (u.diffRatio = none → m.diffRatio = e.diffRatio)
      ∧ (∀ v, u.diffRatio = some v → m.diffRatio = some v)
      ∧ (u.message = none → m.message = e.message)
      ∧ (∀ v, u.message = some v → m.message = some v)
      ∧ (u.baseline = none → m.baseline = e.baseline)
      ∧ (u.current = none → m.current = e.current)
      ∧ (u.diff = none → m.diff = e.diff)
      ∧ (∀ b, u.baseline = some b → m.baseline = some (getBaselinePath s)
            ∧ (updateTest st runId s u now).blobs (getBaselinePath s) = some b)
      ∧ (∀ b, u.current = some b → m.current = some (getCurrentPath runId s)
            ∧ (updateTest st runId s u now).blobs (getCurrentPath runId s) = some b)
      ∧ (∀ b, u.diff = some b → m.diff = some (getDiffPath runId s)
            ∧ (updateTest st runId s u now).blobs (getDiffPath runId s) = some b) := by
  refine ⟨_, updateTest_tests st runId s u now, by simp [hex], by simp [hex],
    by simp [hex], ?_, ?_, ?_, ?_, ?_, ?_, ?_, ?_, ?_, ?_, ?_, ?_⟩
  · intro h
    simp [hex, h]
  · intro v h
    simp [h]
  · intro h
    simp [hex, h]
  · intro v h
    simp [h]
  · intro h
    simp [hex, h]
  · intro v h
    simp [h]
  · intro h
    simp [hex, h]
  · intro h
    simp [hex, h]
  · intro h
    simp [hex, h]
  · intro b h
    exact ⟨by simp [h], updateTest_blobs_baseline st runId s u now b h⟩
  · intro b h
    exact ⟨by simp [h], updateTest_blobs_current st runId s u now b h⟩
  · intro b h
    exact ⟨by simp [h], updateTest_blobs_diff st runId s u now b h⟩

/-- C5 witness: an update carrying a current buffer and a message onto
`sampleRunningDoc`. -/
theorem updateTest_spec_witness :
    sampleRunningState.tests (testKeyFor "r" ⟨"a", .light, ⟨1, 2⟩⟩) =
        some sampleRunningDoc
    ∧ ∃ m, (updateTest sampleRunningState "r" ⟨"a", .light, ⟨1, 2⟩⟩
          ⟨none, none, some [5, 6], none, none, some "wip"⟩ 4).tests
          (testKeyFor "r" ⟨"a", .light, ⟨1, 2⟩⟩) = some m
      ∧ m.storyIdentifier = sampleRunningDoc.storyIdentifier
      ∧ m.startedAt = sampleRunningDoc.startedAt
      ∧ m.status = sampleRunningDoc.status
      ∧ m.baseline = sampleRunningDoc.baseline
      ∧ m.current = some (getCurrentPath "r" ⟨"a", .light, ⟨1, 2⟩⟩)
      ∧ m.message = some "wip"
      ∧ (updateTest sampleRunningState "r" ⟨"a", .light, ⟨1, 2⟩⟩
          ⟨none, none, some [5, 6], none, none, some "wip"⟩ 4).blobs
          (getCurrentPath "r" ⟨"a", .light, ⟨1, 2⟩⟩) = some [5, 6] := by
  refine ⟨by simp [sampleRunningState], ?_⟩
  obtain ⟨m, hm, hsi, hsa, -, hst, hv, -, -, -, hmsg, hbl, -, -, -, hcur, -⟩ :=
    updateTest_spec sampleRunningState "r" ⟨"a", .light, ⟨1, 2⟩⟩
      ⟨none, none, some [5, 6], none, none, some "wip"⟩ 4 sampleRunningDoc
      (by simp [sampleRunningState])
  exact ⟨m, hm, hsi, hsa, hst rfl, hbl rfl, (hcur [5, 6] rfl).1,
    hmsg "wip" rfl, (hcur [5, 6] rfl).2⟩

/-- The summary increments one `finishTest` applies to a found run document:
`finished` plus 1, and plus 1 on the counter matching the finishing status. -/
def bumpSummary (sm : RunSummary) (status : Status) : RunSummary :=
  { sm with finished := sm.finished + 1
            passed := sm.passed + if status = .passed then 1 else 0
            failed := sm.failed + if status = .failed then 1 else 0
            new := sm.new + if status = .new then 1 else 0 }

/-- One `finishTest` on a state holding the run document updates the stored
run by exactly the `bumpSummary` increments (applied via `numIncrBy`, the
atomic per-field increment) and changes nothing else in the run document. -/
theorem finishTest_runs (st : StorageState) (runId : String)
    (result : FinishResult) (now : Nat) (r : RunDoc)
    (h : st.runs (runKey runId) = some r) :
    (finishTest st runId result now).1.runs (runKey runId) =
      some { r with summary := bumpSummary r.summary result.status } := by
  cases hb : result.baseline <;> cases hc : result.current <;>
    cases hd : result.diff <;> cases hs : result.status <;>
    (unfold finishTest;
     simp [hb, hc, hd, hs, h, numIncrBy, RunSummary.incr, bumpSummary])

/-- Folding `finishTest` over a result list folds `bumpSummary` over the
stored run's summary. -/
theorem finishTests_runs (st : StorageState) (runId : String)
    (results : List FinishResult) (now : Nat) (r : RunDoc)
    (h : st.runs (runKey runId) = some r) :
    (finishTests st runId results now).runs (runKey runId) =
      some { r with summary :=
        results.foldl (fun sm res => bumpSummary sm res.status) r.summary } := by
  induction results generalizing st r with
  | nil => simpa [finishTests] using h
  | cons head tail ih =>
      have hstep := finishTest_runs st runId head now r h
      have htail := ih (finishTest st runId head now).1
        { r with summary := bumpSummary r.summary head.status } hstep
      simpa [finishTests] using htail

/-- Counter values after folding `bumpSummary`. -/
theorem foldl_bumpSummary (results : List FinishResult) (sm : RunSummary) :
    (results.foldl (fun a res => bumpSummary a res.status) sm).finished =
        sm.finished + results.length
    ∧ (results.foldl (fun a res => bumpSummary a res.status) sm).passed =
        sm.passed + (results.map (fun res => res.status)).count .passed
    ∧ (results.foldl (fun a res => bumpSummary a res.status) sm).failed =
        sm.failed + (results.map (fun res => res.status)).count .failed
    ∧ (results.foldl (fun a res => bumpSummary a res.status) sm).new =
        sm.new + (results.map (fun res => res.status)).count .new := by
  induction results generalizing sm with
  | nil => simp
  | cons head tail ih =>
      cases hs : head.status <;>
        (obtain ⟨ih1, ih2, ih3, ih4⟩ := ih (bumpSummary sm head.status);
         refine ⟨?_, ?_, ?_, ?_⟩ <;> simp only [List.foldl_cons] <;>
           simp only [ih1, ih2, ih3, ih4] <;>
           simp [bumpSummary, hs, List.count_cons] <;> omega)

/-- With every status terminal, the three terminal counts add up to the
length. -/
theorem count_statuses (l : List Status)
    (h : ∀ x ∈ l, x = .passed ∨ x = .failed ∨ x = .new) :
    l.count .passed + l.count .failed + l.count .new = l.length := by
  induction l with
  | nil => simp
  | cons head tail ih =>
      have hh := h head (by simp)
      have ht := ih (fun x hx => h x (by simp [hx]))
      rcases hh with h1 | h1 | h1 <;> subst h1 <;>
        simp [List.count_cons] <;> omega

/-- C1: with the run document present, a sequence of `finishTest` calls on
distinct test results applies, per call, exactly one atomic increment to the
stored run's `finished` counter and one to the counter matching the
finishing status (`numIncrBy` on single fields, never a rewrite of the whole
summary — see `finishTest`); starting from zeroed counters with terminal
statuses, afterwards `finished = N` and the `passed`/`failed`/`new` counters
are the per-status counts, summing to `N`. -/
theorem finishTest_counters (st : StorageState) (runId : String)
    (results : List FinishResult) (now : Nat) (r : RunDoc)
    (hrun : st.runs (runKey runId) = some r)
    (hzero : r.summary.finished = 0 ∧ r.summary.passed = 0 ∧
      r.summary.failed = 0 ∧ r.summary.new = 0)
    (hdistinct : (results.map (fun res => res.storyIdentifier)).Nodup)
    (hstatus : ∀ res ∈ results,
      res.status = .passed ∨ res.status = .failed ∨ res.status = .new) :
    (∀ (st₂ : StorageState) (res : FinishResult) (r₂ : RunDoc),
        st₂.runs (runKey runId) = some r₂ →
        (finishTest st₂ runId res now).1.runs (runKey runId) =
          some { r₂ with summary := bumpSummary r₂.summary res.status })
    ∧ ∃ r₂, (finishTests st runId results now).runs (runKey runId) = some r₂
      ∧ r₂.summary.finished = results.length
      ∧ r₂.summary.passed = (results.map (fun res => res.status)).count .passed
      ∧ r₂.summary.failed = (results.map (fun res => res.status)).count .failed
      ∧ r₂.summary.new = (results.map (fun res => res.status)).count .new
      ∧ r₂.summary.passed + r₂.summary.failed + r₂.summary.new = results.length := by
  obtain ⟨hz1, hz2, hz3, hz4⟩ := hzero
  obtain ⟨hf1, hf2, hf3, hf4⟩ := foldl_bumpSummary results r.summary
  have hsum := count_statuses (results.map (fun res => res.status))
    (by
      intro x hx
      obtain ⟨res, hres, rfl⟩ := List.mem_map.mp hx
      exact hstatus res hres)
  refine ⟨fun st₂ res r₂ h₂ => finishTest_runs st₂ runId res now r₂ h₂,
    _, finishTests_runs st runId results now r hrun, ?_, ?_, ?_, ?_, ?_⟩
  · simp [hf1, hz1]
  · simp [hf2, hz2]
  · simp [hf3, hz3]
  · simp [hf4, hz4]
  · simp [hf2, hf3, hf4, hz2, hz3, hz4]
    simpa [List.length_map] using hsum

/-- A freshly started run document with zeroed counters. -/
def sampleRunDoc : RunDoc :=
  { runId := "r", startedAt := 1, finishedAt := none, duration := none,
    reason := none,
    summary := { total := 2, finished := 0, passed := 0, failed := 0,
                 changed := 0, skipped := 0, new := 0 },
    environment := ⟨"v20", "linux", false⟩ }

/-- A concrete state holding only `sampleRunDoc`. -/
def sampleRunState : StorageState :=
  { emptyState with runs := setKey emptyState.runs (runKey "r") sampleRunDoc }

/-- The two concrete results finished in the C1 witness. -/
def sampleResults : List FinishResult :=
  [⟨⟨"a", .light, ⟨1, 2⟩⟩, .passed, none, none, none, none, "ok"⟩,
   ⟨⟨"b", .light, ⟨1, 2⟩⟩, .failed, none, none, none, none, "no"⟩]

/-- C1 witness: two distinct tests finished as `passed` and `failed` on a
zero-counter run leave `finished = 2`, `passed = 1`, `failed = 1`. -/
theorem finishTest_counters_witness :
    sampleRunState.runs (runKey "r") = some sampleRunDoc
    ∧ (sampleResults.map (fun res => res.storyIdentifier)).Nodup
    ∧ (∀ res ∈ sampleResults,
        res.status = .passed ∨ res.status = .failed ∨ res.status = .new)
    ∧ ∃ r₂, (finishTests sampleRunState "r" sampleResults 9).runs (runKey "r") =
          some r₂
      ∧ r₂.summary.finished = 2
      ∧ r₂.summary.passed = 1
      ∧ r₂.summary.failed = 1
      ∧ r₂.summary.new = 0
      ∧ r₂.summary.passed + r₂.summary.failed + r₂.summary.new = 2 := by
  obtain ⟨-, r₂, h1, h2, h3, h4, h5, h6⟩ :=
    finishTest_counters sampleRunState "r" sampleResults 9 sampleRunDoc
      (by simp [sampleRunState]) (by simp [sampleRunDoc]) (by decide)
      (by decide)
  refine ⟨by simp [sampleRunState], by decide, by decide, r₂, h1, ?_, ?_, ?_, ?_, ?_⟩
  · simpa [sampleResults] using h2
  · simpa [sampleResults, List.count_cons] using h3
  · simpa [sampleResults, List.count_cons] using h4
  · simpa [sampleResults, List.count_cons] using h5
  · simpa [sampleResults] using h6

/-!  Decimal-rendering facts used for the Path/Identity Resolver claims. -/

theorem natDigitsGo_congr : ∀ (fuel₁ fuel₂ n : Nat), n < fuel₁ → n < fuel₂ →
    natDigitsGo fuel₁ n = natDigitsGo fuel₂ n := by
  intro fuel₁
  induction fuel₁ with
  | zero => intro fuel₂ n h₁ h₂; omega
  | succ f ih =>
      intro fuel₂ n h₁ h₂
      cases fuel₂ with
      | zero => omega
      | succ f₂ =>
          by_cases h10 : n < 10
          · simp [natDigitsGo, h10]
          · have hdiv : n / 10 < n := Nat.div_lt_self (by omega) (by omega)
            simp only [natDigitsGo, if_neg h10]
            rw [ih f₂ (n / 10) (by omega) (by omega)]

/-- The recursive characterization of `natDigits`. -/
theorem natDigits_rec (n : Nat) :
    natDigits n = if n < 10 then [Nat.digitChar n]
                  else natDigits (n / 10) ++ [Nat.digitChar (n % 10)] := by
  by_cases h10 : n < 10
  · simp [natDigits, natDigitsGo, h10]
  · rw [if_neg h10]
    show (if n < 10 then [Nat.digitChar n]
          else natDigitsGo n (n / 10) ++ [Nat.digitChar (n % 10)]) =
        natDigits (n / 10) ++ [Nat.digitChar (n % 10)]
    rw [if_neg h10]
    congr 1
    exact natDigitsGo_congr n (n / 10 + 1) (n / 10) (by omega) (by omega)

theorem digitChar_isDigit (n : Nat) (h : n < 10) : (Nat.digitChar n).isDigit := by
  interval_cases n <;> decide

theorem digitChar_inj_lt :
    ∀ a < 10, ∀ b < 10, Nat.digitChar a = Nat.digitChar b → a = b := by decide

theorem mem_natDigits_isDigit (n : Nat) :
    ∀ {c : Char}, c ∈ natDigits n → c.isDigit := by
  induction n using Nat.strong_induction_on with
  | _ n ih =>
      intro c hc
      rw [natDigits_rec] at hc
      by_cases h10 : n < 10
      · simp [h10] at hc
        subst hc
        exact digitChar_isDigit n h10
      · simp [h10] at hc
        rcases hc with hc | hc
        · exact ih (n / 10) (Nat.div_lt_self (by omega) (by omega)) hc
        · subst hc
          exact digitChar_isDigit (n % 10) (Nat.mod_lt _ (by omega))

theorem natDigits_ne_nil (n : Nat) : natDigits n ≠ [] := by
  rw [natDigits_rec]
  split <;> simp

theorem natDigits_inj : ∀ (m n : Nat), natDigits m = natDigits n → m = n := by
  intro m
  induction m using Nat.strong_induction_on with
  | _ m ih =>
      intro n h
      rw [natDigits_rec m, natDigits_rec n] at h
      by_cases hm : m < 10 <;> by_cases hn : n < 10
      · rw [if_pos hm, if_pos hn] at h
        simp only [List.cons.injEq, and_true] at h
        exact digitChar_inj_lt m hm n hn h
      · exfalso
        rw [if_pos hm, if_neg hn] at h
        have hlen := congrArg List.length h
        simp only [List.length_singleton, List.length_append,
          List.length_cons, List.length_nil] at hlen
        have hz : (natDigits (n / 10)).length = 0 := by omega
        exact natDigits_ne_nil (n / 10) (List.length_eq_zero.mp hz)
      · exfalso
        rw [if_neg hm, if_pos hn] at h
        have hlen := congrArg List.length h
        simp only [List.length_singleton, List.length_append,
          List.length_cons, List.length_nil] at hlen
        have hz : (natDigits (m / 10)).length = 0 := by omega
        exact natDigits_ne_nil (m / 10) (List.length_eq_zero.mp hz)
      · rw [if_neg hm, if_neg hn] at h
        have hlen : (natDigits (m / 10)).length = (natDigits (n / 10)).length := by
          have hl := congrArg List.length h
          simp only [List.length_append, List.length_cons, List.length_nil] at hl
          omega
        obtain ⟨h₁, h₂⟩ := List.append_inj h hlen
        have hdiv := ih (m / 10) (Nat.div_lt_self (by omega) (by omega)) (n / 10) h₁
        have hmod : m % 10 = n % 10 := by
          have h₃ : Nat.digitChar (m % 10) = Nat.digitChar (n % 10) := by
            simpa using h₂
          exact digitChar_inj_lt _ (Nat.mod_lt _ (by omega)) _
            (Nat.mod_lt _ (by omega)) h₃
        omega

theorem mem_natDigits_ne_colon (n : Nat) {c : Char} (hc : c ∈ natDigits n) :
    c ≠ ':' := by
  intro hceq
  subst hceq
  exact absurd (mem_natDigits_isDigit n hc) (by decide)

theorem mem_natDigits_ne_x (n : Nat) {c : Char} (hc : c ∈ natDigits n) :
    c ≠ 'x' := by
  intro hceq
  subst hceq
  exact absurd (mem_natDigits_isDigit n hc) (by decide)

/-- Unique decomposition of a character list at the first character failing
`P`, when the leading run satisfies `P`. -/
theorem append_split_unique (P : Char → Prop) :
    ∀ (A C : List Char) (b d : Char) (B D : List Char),
      (∀ c ∈ A, P c) → (∀ c ∈ C, P c) → ¬ P b → ¬ P d →
      A ++ b :: B = C ++ d :: D → A = C ∧ b = d ∧ B = D := by
  intro A
  induction A with
  | nil =>
      intro C b d B D hA hC hb hd h
      cases C with
      | nil => simpa using h
      | cons c cs =>
          simp only [List.nil_append, List.cons_append, List.cons.injEq] at h
          obtain ⟨rfl, -⟩ := h
          exact absurd (hC b (by simp)) hb
  | cons a as ih =>
      intro C b d B D hA hC hb hd h
      cases C with
      | nil =>
          simp only [List.nil_append, List.cons_append, List.cons.injEq] at h
          obtain ⟨rfl, -⟩ := h
          exact absurd (hA a (by simp)) hd
      | cons c cs =>
          simp only [List.cons_append, List.cons.injEq] at h
          obtain ⟨rfl, h₂⟩ := h
          obtain ⟨h₃, h₄, h₅⟩ := ih cs b d B D
            (fun x hx => hA x (by simp [hx])) (fun x hx => hC x (by simp [hx]))
            hb hd h₂
          exact ⟨by rw [h₃], h₄, h₅⟩

@[simp] theorem natStr_data (n : Nat) : (natStr n).data = natDigits n := rfl

/-- The test key decomposed at its colons. -/
theorem testKeyFor_data (r : String) (s : StoryIdentifier) :
    (testKeyFor r s).data =
      "visualtest".data ++ ':' :: (r.data ++ ':' :: (s.storyId.data
        ++ ':' :: (s.theme.str.data ++ ':' :: (natDigits s.viewport.width
        ++ 'x' :: natDigits s.viewport.height)))) := by
  simp [testKeyFor, String.data_append]

theorem theme_str_no_colon (t : Theme) : ∀ c ∈ t.str.data, c ≠ ':' := by
  cases t <;> decide

theorem theme_str_inj (t₁ t₂ : Theme) (h : t₁.str.data = t₂.str.data) :
    t₁ = t₂ := by
  cases t₁ <;> cases t₂ <;> first | rfl | (exfalso; simp [Theme.str] at h)

/-- Injectivity of the metadata key over colon-free run and story ids. -/
theorem testKeyFor_inj (r₁ r₂ : String) (s₁ s₂ : StoryIdentifier)
    (hr₁ : ∀ c ∈ r₁.data, c ≠ ':') (hr₂ : ∀ c ∈ r₂.data, c ≠ ':')
    (hs₁ : ∀ c ∈ s₁.storyId.data, c ≠ ':')
    (hs₂ : ∀ c ∈ s₂.storyId.data, c ≠ ':')
    (h : testKeyFor r₁ s₁ = testKeyFor r₂ s₂) : r₁ = r₂ ∧ s₁ = s₂ := by
  have hdata := congrArg String.data h
  rw [testKeyFor_data, testKeyFor_data] at hdata
  have hnc : ¬ ((':' : Char) ≠ ':') := by simp
  obtain ⟨-, -, h₁⟩ := append_split_unique (fun c => c ≠ ':') _ _ _ _ _ _
    (by decide) (by decide) hnc hnc hdata
  obtain ⟨hrun, -, h₂⟩ := append_split_unique (fun c => c ≠ ':') _ _ _ _ _ _
    hr₁ hr₂ hnc hnc h₁
  obtain ⟨hsid, -, h₃⟩ := append_split_unique (fun c => c ≠ ':') _ _ _ _ _ _
    hs₁ hs₂ hnc hnc h₂
  obtain ⟨hth, -, h₄⟩ := append_split_unique (fun c => c ≠ ':') _ _ _ _ _ _
    (theme_str_no_colon s₁.theme) (theme_str_no_colon s₂.theme) hnc hnc h₃
  have hnx : ¬ (('x' : Char) ≠ 'x') := by simp
  obtain ⟨hw, -, hh⟩ := append_split_unique (fun c => c ≠ 'x') _ _ _ _ _ _
    (fun c hc => mem_natDigits_ne_x _ hc) (fun c hc => mem_natDigits_ne_x _ hc)
    hnx hnx h₄
  refine ⟨String.ext hrun, ?_⟩
  obtain ⟨sid₁, t₁, ⟨w₁, ht₁⟩⟩ := s₁
  obtain ⟨sid₂, t₂, ⟨w₂, ht₂⟩⟩ := s₂
  simp only at hsid hth hw hh
  exact congr (congr (congrArg StoryIdentifier.mk (String.ext hsid))
    (theme_str_inj _ _ hth))
    (by rw [natDigits_inj _ _ hw, natDigits_inj _ _ hh])

/-- The image identifier decomposed at its separators. -/
theorem getImageId_data (s : StoryIdentifier) :
    (getImageId s).data =
      s.storyId.data ++ '-' :: (s.theme.str.data ++ '-' :: (natDigits s.viewport.width
        ++ 'x' :: natDigits s.viewport.height)) := by
  simp [getImageId, String.data_append]

/-- The reversed image identifier: the decimal runs come first, so the
decomposition is unique even for story ids containing dashes. -/
theorem getImageId_data_reverse (s : StoryIdentifier) :
    (getImageId s).data.reverse =
      (natDigits s.viewport.height).reverse ++ 'x' :: ((natDigits s.viewport.width).reverse
        ++ '-' :: (s.theme.str.data.reverse ++ '-' :: s.storyId.data.reverse)) := by
  rw [getImageId_data]
  simp

/-- Injectivity of `getImageId` over arbitrary story ids. -/
theorem getImageId_inj (s₁ s₂ : StoryIdentifier)
    (h : getImageId s₁ = getImageId s₂) : s₁ = s₂ := by
  have hdata : (getImageId s₁).data.reverse = (getImageId s₂).data.reverse := by
    rw [h]
  rw [getImageId_data_reverse, getImageId_data_reverse] at hdata
  have hnx : ¬ (('x' : Char).isDigit = true) := by decide
  have hnd : ¬ (('-' : Char).isDigit = true) := by decide
  obtain ⟨hh, -, h₁⟩ := append_split_unique (fun c => c.isDigit = true) _ _ _ _ _ _
    (fun c hc => mem_natDigits_isDigit _ (List.mem_reverse.mp hc))
    (fun c hc => mem_natDigits_isDigit _ (List.mem_reverse.mp hc)) hnx hnx hdata
  obtain ⟨hw, -, h₂⟩ := append_split_unique (fun c => c.isDigit = true) _ _ _ _ _ _
    (fun c hc => mem_natDigits_isDigit _ (List.mem_reverse.mp hc))
    (fun c hc => mem_natDigits_isDigit _ (List.mem_reverse.mp hc)) hnd hnd h₁
  have hts : s₁.theme = s₂.theme ∧ s₁.storyId = s₂.storyId := by
    cases ht₁ : s₁.theme <;> cases ht₂ : s₂.theme <;>
      rw [ht₁, ht₂] at h₂ <;>
      simp only [Theme.str] at h₂ <;>
      first
        | (rw [show ("light".data.reverse : List Char) = ['t', 'h', 'g', 'i', 'l'] from rfl,
              show ("dark".data.reverse : List Char) = ['k', 'r', 'a', 'd'] from rfl] at h₂
           simp only [List.cons_append, List.nil_append, List.cons.injEq] at h₂
           exact absurd h₂.1 (by decide))
        | (refine ⟨rfl, ?_⟩
           have h₃ : s₁.storyId.data.reverse = s₂.storyId.data.reverse := by
             have h₄ := List.append_cancel_left h₂
             exact (List.cons.inj h₄).2
           exact String.ext (List.reverse_injective h₃))
  obtain ⟨sid₁, t₁, ⟨w₁, v₁⟩⟩ := s₁
  obtain ⟨sid₂, t₂, ⟨w₂, v₂⟩⟩ := s₂
  simp only at hts hh hw
  refine congr (congr (congrArg StoryIdentifier.mk hts.2) hts.1) ?_
  rw [natDigits_inj _ _ (List.reverse_injective hw),
      natDigits_inj _ _ (List.reverse_injective hh)]

/-- Injectivity of baseline paths over arbitrary story identifiers. -/
theorem getBaselinePath_inj (s₁ s₂ : StoryIdentifier)
    (h : getBaselinePath s₁ = getBaselinePath s₂) : s₁ = s₂ := by
  have hdata := congrArg String.data h
  simp only [getBaselinePath, String.data_append, List.append_assoc] at hdata
  have h₁ := List.append_cancel_left hdata
  have h₂ := List.append_cancel_left h₁
  have h₃ := List.append_cancel_right h₂
  exact getImageId_inj _ _ (String.ext h₃)

/-- Injectivity of per-run current-image paths over slash-free run ids. -/
theorem getCurrentPath_inj (r₁ r₂ : String) (s₁ s₂ : StoryIdentifier)
    (hr₁ : ∀ c ∈ r₁.data, c ≠ '/') (hr₂ : ∀ c ∈ r₂.data, c ≠ '/')
    (h : getCurrentPath r₁ s₁ = getCurrentPath r₂ s₂) : r₁ = r₂ ∧ s₁ = s₂ := by
  have hdata := congrArg String.data h
  simp only [getCurrentPath, getRunImageDir, String.data_append,
    List.append_assoc, List.singleton_append] at hdata
  have h₁ := List.append_cancel_left hdata
  injection h₁ with _ h₂
  obtain ⟨hr, -, h₃⟩ := append_split_unique (fun c => c ≠ '/') _ _ _ _ _ _
    hr₁ hr₂ (by simp) (by simp) h₂
  have h₄ := List.append_cancel_right h₃
  exact ⟨String.ext hr, getImageId_inj _ _ (String.ext h₄)⟩

/-- C8 counterexample: two distinct well-formed identifiers (non-empty story
ids, positive viewports, themes in \x7blight, dark\x7d) whose metadata keys
coincide, because a colon inside an id shifts the colon-delimited fields. -/
theorem testKeyFor_collision :
    testKeyFor "r:a" ⟨"b", .light, ⟨1, 1⟩⟩ =
      testKeyFor "r" ⟨"a:b", .light, ⟨1, 1⟩⟩
    ∧ ¬ ("r:a" = "r" ∧
        (⟨"b", .light, ⟨1, 1⟩⟩ : StoryIdentifier) = ⟨"a:b", .light, ⟨1, 1⟩⟩) := by
  decide

/-- C8 (amended): the resolver is a pure deterministic function of its
inputs (it is a function, with no other state), and it is collision-free on
the id alphabets the system produces: metadata keys are injective in
(runId, storyId, theme, viewport) when run and story ids are colon-free,
baseline paths are injective in (storyId, theme, viewport) for arbitrary
story ids, and per-run current-image paths are injective when run ids are
slash-free.  (Unrestricted ids can collide: see the counterexample.) -/
theorem pathResolver_injective :
    (∀ (r₁ r₂ : String) (s₁ s₂ : StoryIdentifier),
      (∀ c ∈ r₁.data, c ≠ ':') → (∀ c ∈ r₂.data, c ≠ ':') →
      (∀ c ∈ s₁.storyId.data, c ≠ ':') → (∀ c ∈ s₂.storyId.data, c ≠ ':') →
      testKeyFor r₁ s₁ = testKeyFor r₂ s₂ → r₁ = r₂ ∧ s₁ = s₂)
    ∧ (∀ s₁ s₂ : StoryIdentifier,
        getBaselinePath s₁ = getBaselinePath s₂ → s₁ = s₂)
    ∧ (∀ (r₁ r₂ : String) (s₁ s₂ : StoryIdentifier),
        (∀ c ∈ r₁.data, c ≠ '/') → (∀ c ∈ r₂.data, c ≠ '/') →
        getCurrentPath r₁ s₁ = getCurrentPath r₂ s₂ → r₁ = r₂ ∧ s₁ = s₂) :=
  ⟨testKeyFor_inj, getBaselinePath_inj, getCurrentPath_inj⟩

/-- C8 witness: the amended theorem applied at concrete colon-free and
slash-free identifiers. -/
theorem pathResolver_injective_witness :
    (∀ c ∈ ("run1" : String).data, c ≠ ':')
    ∧ (∀ c ∈ ("btn" : String).data, c ≠ ':')
    ∧ (∀ c ∈ ("run1" : String).data, c ≠ '/')
    ∧ ("run1" = "run1"
        ∧ (⟨"btn", .light, ⟨1920, 1080⟩⟩ : StoryIdentifier) = ⟨"btn", .light, ⟨1920, 1080⟩⟩)
    ∧ (⟨"btn", .dark, ⟨2, 3⟩⟩ : StoryIdentifier) = ⟨"btn", .dark, ⟨2, 3⟩⟩
    ∧ ("run1" = "run1"
        ∧ (⟨"btn", .light, ⟨4, 5⟩⟩ : StoryIdentifier) = ⟨"btn", .light, ⟨4, 5⟩⟩) := by
  refine ⟨by decide, by decide, by decide, ?_, ?_, ?_⟩
  · exact pathResolver_injective.1 "run1" "run1" _ _
      (by decide) (by decide) (by decide) (by decide) rfl
  · exact pathResolver_injective.2.1 ⟨"btn", .dark, ⟨2, 3⟩⟩ ⟨"btn", .dark, ⟨2, 3⟩⟩ rfl
  · exact pathResolver_injective.2.2 "run1" "run1" _ _ (by decide) (by decide) rfl

end VisualTests
